import Mathlib

/-!
Shallow embedding of the AWS gateway setup configuration subsystem
(`src/gateway/aws_setup/models.py` and `src/gateway/aws_setup/config_manager.py`)
and proofs about the frozen claims C1..C10.

Modelling conventions:
* Python strings are Lean `String`; character-level operations are defined over
  `String.data` (`List Char`).  Python's `str.strip`, `str.isdigit`,
  `str.isalnum` are modelled for the ASCII range (all configuration values in
  scope are ASCII); `str.replace(x, "")` with a one-character pattern is
  modelled by filtering that character out.
* YAML configuration mappings (`Dict[str, Any]`) are modelled as association
  lists `List (String × String)` with first-match lookup, restricted to string
  values (all checks under scrutiny are about string values; `str(...)` is the
  identity there and `isinstance(value, str)` is always true).
* The file system is modelled explicitly: a YAML file is `Option YamlDoc`
  (absent / malformed / empty document / parsed mapping), and the pair of
  template files written by `create_template_files` is a `TemplateFS` record.
* Python exceptions raised by `load_config` become `Except LoadError`.
* `datetime` timestamps are modelled abstractly as `Nat`; they play no role in
  any claim.
-/

namespace AwsSetup

/-! ## Python string primitives (ASCII model) -/

/-- Characters removed by Python `str.strip()` (ASCII whitespace). -/
def pySpace (c : Char) : Bool :=
  c == ' ' || c == '\t' || c == '\n' || c == '\r' || c == '\x0b' || c == '\x0c'

/-- `str.strip()` on the character list: drop whitespace from both ends. -/
def stripList (cs : List Char) : List Char :=
  ((cs.dropWhile pySpace).reverse.dropWhile pySpace).reverse

/-- Python `s.strip()`. -/
def pyStrip (s : String) : String := ⟨stripList s.data⟩

/-- Python truthiness of a string: non-empty. -/
def pyTruthy (s : String) : Bool := !s.data.isEmpty

/-- Python `s.isdigit()` (ASCII model): non-empty and all decimal digits. -/
def pyIsdigit (s : String) : Bool := !s.data.isEmpty && s.data.all Char.isDigit

/-- Python `s.isalnum()` (ASCII model): non-empty and all letters or digits. -/
def pyIsalnum (s : String) : Bool := !s.data.isEmpty && s.data.all Char.isAlphanum

/-- Python `s.replace(c, "")` for a one-character pattern: remove every `c`. -/
def removeChar (c : Char) (s : String) : String := ⟨s.data.filter (fun d => d != c)⟩

/-- List version of "starts with". -/
def startsWithList : List Char → List Char → Bool
  | [], _ => true
  | _ :: _, [] => false
  | p :: ps, c :: cs => p == c && startsWithList ps cs

/-- Python `s.startswith(p)`. -/
def pyStartsWith (p s : String) : Bool := startsWithList p.data s.data

/-- Python `c in s` for a single character. -/
def containsChar (s : String) (c : Char) : Bool := s.data.any (fun d => d == c)

/-- Python `s.split(c)[0]`: the segment before the first occurrence of `c`
(the whole string when `c` does not occur). -/
def headBefore (c : Char) (s : String) : String := ⟨s.data.takeWhile (fun d => d != c)⟩

/-! ## Configuration mappings -/

/-- A YAML or environment configuration mapping: association list with string values. -/
abbrev Config := List (String × String)

/-- Dictionary lookup (first match). -/
def cfgGet : Config → String → Option String
  | [], _ => none
  | (k', v') :: rest, k => if k' == k then some v' else cfgGet rest k

/-- Python `d[key] = value`: replace the existing binding in place, or append. -/
def setKey : Config → String → String → Config
  | [], k, v => [(k, v)]
  | (k', v') :: rest, k, v =>
    if k' == k then (k, v) :: rest else (k', v') :: setKey rest k v

/-- `param in config and config[param]` (present with a truthy value). -/
def configHasTruthy (config : Config) (param : String) : Bool :=
  match cfgGet config param with
  | some v => pyTruthy v
  | none => false

/-! ## models.py -/

/-- `ValidationStatus` enum. -/
inductive ValidationStatus
  | valid
  | invalid
  | warning
deriving DecidableEq

/-- `SetupStatus` enum; `part` models the Python member `PARTIAL`. -/
inductive SetupStatus
  | success
  | failed
  | part
deriving DecidableEq

/-- `ValidationError` dataclass. -/
structure ValidationError where
  field : String
  message : String
  suggestion : Option String := none
  error_code : Option String := none
deriving DecidableEq

/-- `ValidationResult` dataclass. -/
structure ValidationResult where
  is_valid : Bool
  status : ValidationStatus
  errors : List ValidationError := []
  warnings : List String := []
deriving DecidableEq

/-- `ValidationResult.add_error`. -/
def ValidationResult.add_error (r : ValidationResult) (field message : String)
    (suggestion error_code : Option String) : ValidationResult :=
  { r with
    errors := r.errors ++ [⟨field, message, suggestion, error_code⟩]
    is_valid := false
    status := ValidationStatus.invalid }

/-- `ValidationResult.add_warning`. -/
def ValidationResult.add_warning (r : ValidationResult) (message : String) :
    ValidationResult :=
  { r with
    warnings := r.warnings ++ [message]
    status := if r.status = ValidationStatus.valid then ValidationStatus.warning else r.status }

/-- `SetupError` dataclass. -/
structure SetupError where
  component : String
  error_type : String
  message : String
  suggestion : Option String := none
  recoverable : Bool := true
deriving DecidableEq

/-- `SetupResult` dataclass. -/
structure SetupResult where
  success : Bool
  status : SetupStatus
  gateway_url : Option String := none
  provider_arn : Option String := none
  errors : List SetupError := []
  warnings : List String := []
deriving DecidableEq

/-- `SetupResult.add_error`: append the error, clear `success`, and when the
status is still `SUCCESS` set it to `FAILED` if not recoverable else `PARTIAL`. -/
def SetupResult.add_error (r : SetupResult) (component error_type message : String)
    (suggestion : Option String) (recoverable : Bool) : SetupResult :=
  { r with
    errors := r.errors ++ [⟨component, error_type, message, suggestion, recoverable⟩]
    success := false
    status :=
      if r.status = SetupStatus.success then
        (if !recoverable then SetupStatus.failed else SetupStatus.part)
      else r.status }

/-- `SetupState` dataclass (timestamp abstract). -/
structure SetupState where
  step : String
  completed_steps : List String := []
  failed_steps : List String := []
  configuration : Config := []
  timestamp : Nat := 0
deriving DecidableEq

/-- `SetupState.mark_step_completed`: append to `completed_steps` when absent,
remove (first occurrence, as Python `list.remove`) from `failed_steps` when present. -/
def SetupState.mark_step_completed (s : SetupState) (step : String) : SetupState :=
  { s with
    completed_steps :=
      if step ∈ s.completed_steps then s.completed_steps else s.completed_steps ++ [step]
    failed_steps :=
      if step ∈ s.failed_steps then s.failed_steps.erase step else s.failed_steps }

/-- `SetupState.mark_step_failed`: append to `failed_steps` when absent. -/
def SetupState.mark_step_failed (s : SetupState) (step : String) : SetupState :=
  { s with
    failed_steps :=
      if step ∈ s.failed_steps then s.failed_steps else s.failed_steps ++ [step] }

/-! ## config_manager.py: loading -/

/-- The content of a YAML configuration file: malformed text, an empty (null)
document, or a parsed mapping. -/
inductive YamlDoc
  | malformed
  | empty
  | mapping (config : Config)
deriving DecidableEq

/-- The exceptions `load_config` can raise: `FileNotFoundError`, `yaml.YAMLError`. -/
inductive LoadError
  | not_found
  | parse_error
deriving DecidableEq

/-- The identifier-like keys whose values `load_config` strips of whitespace. -/
def identifier_keys : List String :=
  ["account_id", "role_name", "user_pool_id", "client_id",
   "s3_bucket", "credential_provider_name"]

/-- The clean-up loop in `load_config`: strip whitespace from the values of the
identifier keys (every value is a string in this model, so the
`isinstance(config[key], str)` guard is always true). -/
def stripIdentifierKeys (config : Config) : Config :=
  config.map fun kv =>
    match kv with
    | (k, v) => if identifier_keys.elem k then (k, pyStrip v) else (k, v)

/-- `ConfigurationManager.load_config`, over an explicit file state.
`none` (absent file) raises `FileNotFoundError`; malformed YAML raises
`yaml.YAMLError`; an empty (null) document becomes `{}` via `config or {}`
(the `if config:` clean-up guard is skipped, which agrees with stripping an
empty mapping); a parsed mapping is returned with identifier keys stripped. -/
def load_config (file : Option YamlDoc) : Except LoadError Config :=
  match file with
  | none => Except.error LoadError.not_found
  | some YamlDoc.malformed => Except.error LoadError.parse_error
  | some YamlDoc.empty => Except.ok []
  | some (YamlDoc.mapping config) => Except.ok (stripIdentifierKeys config)

/-- `ConfigurationManager.update_config_parameter`: load the existing
configuration (an absent file starts from `{}`; a YAML parse failure
propagates), set the one key, and save.  The saved mapping is returned. -/
def update_config_parameter (file : Option YamlDoc) (key value : String) :
    Except LoadError Config :=
  match load_config file with
  | Except.error LoadError.not_found => Except.ok (setKey [] key value)
  | Except.error e => Except.error e
  | Except.ok config => Except.ok (setKey config key value)

/-! ## config_manager.py: validation -/

/-- Required AWS configuration parameters. -/
def required_aws_params : List String :=
  ["account_id", "region", "role_name", "endpoint_url",
   "credential_provider_endpoint_url"]

/-- Required Cognito parameters. -/
def required_cognito_params : List String := ["user_pool_id", "client_id"]

/-- Required gateway parameters. -/
def required_gateway_params : List String := ["gateway_name", "credential_provider_name"]

/-- The two endpoint-URL parameters checked for an `https://` scheme. -/
def endpoint_url_params : List String :=
  ["endpoint_url", "credential_provider_endpoint_url"]

/-- Known placeholder sentinel values. -/
def placeholder_values : List String :=
  ["YOUR_ACCOUNT_ID", "REGION", "", "YOUR_USER_POOL_ID",
   "YOUR_CLIENT_ID", "your-bucket-name"]

/-- Error appended for a missing/empty required AWS parameter. -/
def missingAwsError (param : String) : ValidationError :=
  ⟨param, s!"Required AWS parameter \x27{param}\x27 is missing or empty",
   some s!"Add \x27{param}\x27 to your config.yaml file", none⟩

/-- Error appended for a missing/empty required Cognito parameter. -/
def missingCognitoError (param : String) : ValidationError :=
  ⟨param, s!"Required Cognito parameter \x27{param}\x27 is missing or empty",
   some "Run deployment/setup_cognito.sh to generate Cognito configuration", none⟩

/-- Error appended for a missing/empty required gateway parameter. -/
def missingGatewayError (param : String) : ValidationError :=
  ⟨param, s!"Required gateway parameter \x27{param}\x27 is missing or empty",
   some s!"Add \x27{param}\x27 to your config.yaml file", none⟩

/-- The three required-parameter loops of `validate_config`: one error per
missing-or-empty required key, in source order. -/
def requiredParamErrors (config : Config) : List ValidationError :=
  (required_aws_params.filterMap fun param =>
    if configHasTruthy config param then none else some (missingAwsError param))
  ++ (required_cognito_params.filterMap fun param =>
    if configHasTruthy config param then none else some (missingCognitoError param))
  ++ (required_gateway_params.filterMap fun param =>
    if configHasTruthy config param then none else some (missingGatewayError param))

/-- The AWS-account-id format check of `validate_config`: when `account_id` is
present and truthy, trim it and require `isdigit` and length 12. -/
def accountIdErrors (config : Config) : List ValidationError :=
  match cfgGet config "account_id" with
  | some v =>
    if pyTruthy v then
      let account_id := pyStrip v
      if !(pyIsdigit account_id) || account_id.data.length != 12 then
        [⟨"account_id", s!"Invalid AWS account ID format: {account_id}",
          some "AWS account ID must be a 12-digit number", none⟩]
      else []
    else []
  | none => []

/-- The region format check of `validate_config`:
`region.replace("-", "").replace("_", "").isalnum()`. -/
def regionErrors (config : Config) : List ValidationError :=
  match cfgGet config "region" with
  | some v =>
    if pyTruthy v then
      let region := pyStrip v
      if !(pyIsalnum (removeChar '_' (removeChar '-' region))) then
        [⟨"region", s!"Invalid AWS region format: {region}",
          some "AWS region should be in format like \x27us-east-1\x27", none⟩]
      else []
    else []
  | none => []

/-- The endpoint-URL checks of `validate_config`: each present, truthy URL must
start with `https://`. -/
def endpointUrlErrors (config : Config) : List ValidationError :=
  endpoint_url_params.filterMap fun url_param =>
    match cfgGet config url_param with
    | some v =>
      if pyTruthy v then
        let url := pyStrip v
        if !(pyStartsWith "https://" url) then
          some ⟨url_param, s!"Invalid endpoint URL: {url}",
            some "Endpoint URLs must use HTTPS", none⟩
        else none
      else none
    | none => none

/-- The Cognito user-pool-id format check of `validate_config`:
must contain `_`, and the segment before the first `_`, with `-` removed,
must be alphanumeric. -/
def userPoolErrors (config : Config) : List ValidationError :=
  match cfgGet config "user_pool_id" with
  | some v =>
    if pyTruthy v then
      let pool_id := pyStrip v
      if !(containsChar pool_id '_')
          || !(pyIsalnum (removeChar '-' (headBefore '_' pool_id))) then
        [⟨"user_pool_id", s!"Invalid Cognito User Pool ID format: {pool_id}",
          some "User Pool ID should be in format \x27region_POOLID\x27", none⟩]
      else []
    else []
  | none => []

/-- The placeholder scan of `validate_config`: every key whose (string) value
is a known placeholder sentinel gets one error, in mapping order. -/
def placeholderErrors (config : Config) : List ValidationError :=
  config.filterMap fun kv =>
    match kv with
    | (key, value) =>
      if placeholder_values.elem value then
        some ⟨key, s!"Configuration parameter \x27{key}\x27 contains placeholder value: {value}",
          some s!"Replace \x27{value}\x27 with your actual {key}", none⟩
      else none

/-- All errors appended by one `validate_config` call, in source order. -/
def validationErrors (config : Config) : List ValidationError :=
  requiredParamErrors config ++ accountIdErrors config ++ regionErrors config
    ++ endpointUrlErrors config ++ userPoolErrors config ++ placeholderErrors config

/-- The fresh result every validation entry point starts from. -/
def initValidationResult : ValidationResult := ⟨true, ValidationStatus.valid, [], []⟩

/-- Apply `ValidationResult.add_error` once per listed error, left to right
(this is exactly what the sequential checks of the source do). -/
def addErrorList (r : ValidationResult) (es : List ValidationError) : ValidationResult :=
  es.foldl (fun r e => r.add_error e.field e.message e.suggestion e.error_code) r

/-- `ConfigurationManager.validate_config`: start from a valid result and run
every check in order, appending each check's errors via `add_error`. -/
def validate_config (config : Config) : ValidationResult :=
  addErrorList initValidationResult (validationErrors config)

/-! ## config_manager.py: environment variables -/

/-- Lookup in `dict(os.environ)` updated with the `.env`-file mapping:
the file value takes precedence (`env_vars.update(...)`). -/
def envLookup (os_env env_file : Config) (var : String) : Option String :=
  match cfgGet env_file var with
  | some v => some v
  | none => cfgGet os_env var

/-- The per-variable condition of `validate_environment_variables`:
`var not in env_vars or not env_vars[var]`. -/
def envVarMissing (os_env env_file : Config) (var : String) : Bool :=
  match envLookup os_env env_file var with
  | none => true
  | some v => v.data.isEmpty

/-- Error appended for a missing required environment variable. -/
def envError (var : String) : ValidationError :=
  ⟨var, s!"Required environment variable \x27{var}\x27 is not set",
   some s!"Set {var} in your .env file or environment", none⟩

/-- The errors appended by one `validate_environment_variables` call:
one per required variable missing from the merged environment. -/
def envVarErrors (os_env env_file : Config) (required_vars : List String) :
    List ValidationError :=
  required_vars.filterMap fun var =>
    if envVarMissing os_env env_file var then some (envError var) else none

/-- `ConfigurationManager.validate_environment_variables`, with the process
environment and the parsed `.env` file as explicit inputs. -/
def validate_environment_variables (os_env env_file : Config)
    (required_vars : List String) : ValidationResult :=
  addErrorList initValidationResult (envVarErrors os_env env_file required_vars)

/-! ## config_manager.py: template creation -/

/-- The `config_template` mapping written by `create_template_files`
(verbatim from the source, including the trailing space in the role name). -/
def config_template : Config :=
  [("account_id", "YOUR_ACCOUNT_ID"),
   ("region", "us-east-1"),
   ("role_name", "SRE-Agent-Gateway-Role "),
   ("endpoint_url", "https://bedrock-agentcore-control.us-east-1.amazonaws.com"),
   ("credential_provider_endpoint_url",
    "https://us-east-1.prod.agent-credential-provider.cognito.aws.dev"),
   ("user_pool_id", "YOUR_USER_POOL_ID"),
   ("client_id", "YOUR_CLIENT_ID"),
   ("s3_bucket", ""),
   ("s3_path_prefix", "devops-multiagent-demo"),
   ("credential_provider_name", "sre-agent-api-key-credential-provider"),
   ("provider_arn",
    "arn:aws:bedrock-agentcore:REGION:ACCOUNT_ID:token-vault/default/apikeycredentialprovider/sre-agent-api-key-credential-provider"),
   ("gateway_name", "MyAgentCoreGateway"),
   ("gateway_description", "AgentCore Gateway for API Integration"),
   ("target_description", "S3 target for OpenAPI schema")]

/-- The `.env.example` template text written by `create_template_files`. -/
def env_template : String :=
  "# Environment Variables for SRE Agent Gateway Setup\n# Copy this file to .env and fill in your actual values\n\n# Cognito Configuration for Token Generation\nCOGNITO_DOMAIN=https://yourdomain.auth.us-west-2.amazoncognito.com\nCOGNITO_CLIENT_ID=your-client-id-here\nCOGNITO_CLIENT_SECRET=your-client-secret-here\nCOGNITO_USER_POOL_ID=your-user-pool-id-here\n\n# Backend API Key for credential provider\nBACKEND_API_KEY=your-backend-api-key-here\n\n# Anthropic API Credentials (optional - for Anthropic models)\nANTHROPIC_API_KEY=your-anthropic-api-key-here\n"

/-- The two files `create_template_files` may write: the `config.yaml` template
(modelled as the mapping it serializes) and the `.env.example` text.
`none` means the file does not exist. -/
structure TemplateFS where
  config_file : Option Config := none
  env_example_file : Option String := none
deriving DecidableEq

/-- `ConfigurationManager.create_template_files`: write each template only if
the target file does not already exist. -/
def create_template_files (fs : TemplateFS) : TemplateFS :=
  { config_file :=
      match fs.config_file with
      | none => some config_template
      | some c => some c
    env_example_file :=
      match fs.env_example_file with
      | none => some env_template
      | some e => some e }

end AwsSetup


namespace AwsSetup

/-! ## Helper lemmas -/

/-- `addErrorList` appends exactly the listed errors. -/
theorem addErrorList_errors (es : List ValidationError) (r : ValidationResult) :
    (addErrorList r es).errors = r.errors ++ es := by
  induction es generalizing r with
  | nil => simp [addErrorList]
  | cons e es ih =>
    obtain ⟨f, m, sg, c⟩ := e
    show (addErrorList (r.add_error f m sg c) es).errors = _
    rw [ih]
    simp [ValidationResult.add_error]

/-- `addErrorList` clears `is_valid` exactly when at least one error is appended. -/
theorem addErrorList_is_valid (es : List ValidationError) (r : ValidationResult) :
    (addErrorList r es).is_valid = (r.is_valid && es.isEmpty) := by
  induction es generalizing r with
  | nil => simp [addErrorList]
  | cons e es ih =>
    show (addErrorList (r.add_error e.field e.message e.suggestion e.error_code) es).is_valid = _
    rw [ih]
    simp [ValidationResult.add_error]

/-- Setting one key leaves the lookup of every other key unchanged. -/
theorem cfgGet_setKey_ne (config : Config) (key value other : String)
    (h : other ≠ key) :
    cfgGet (setKey config key value) other = cfgGet config other := by
  induction config with
  | nil => simp [setKey, cfgGet, beq_iff_eq, Ne.symm h]
  | cons kv rest ih =>
    obtain ⟨k', v'⟩ := kv
    by_cases hk : k' = key
    · subst hk
      simp [setKey, cfgGet, beq_iff_eq, Ne.symm h]
    · simp [setKey, cfgGet, beq_iff_eq, hk, ih]

/-! ## Claim C1 -/

/-- Claim C1 (amended): every `add_error` call sets `success` to `false`.
An error added while `status` is still `SUCCESS` sets the status to `FAILED`
when non-recoverable and to `PARTIAL` when recoverable; an error added once the
status is no longer `SUCCESS` leaves the status unchanged (so a non-recoverable
error forces `FAILED` only when it is the first error overall). -/
theorem c1_add_error_status (r : SetupResult)
    (component error_type message : String) (suggestion : Option String)
    (recoverable : Bool) :
    (r.add_error component error_type message suggestion recoverable).success = false
    ∧ (r.status = SetupStatus.success →
        (r.add_error component error_type message suggestion recoverable).status
          = (if !recoverable then SetupStatus.failed else SetupStatus.part))
    ∧ (r.status ≠ SetupStatus.success →
        (r.add_error component error_type message suggestion recoverable).status
          = r.status) := by
  refine ⟨rfl, fun h => ?_, fun h => ?_⟩
  · simp [SetupResult.add_error, h]
  · simp [SetupResult.add_error, h]

/-- Claim C1 witness: on a fresh successful result, one non-recoverable
error clears `success` and forces status `FAILED`. -/
theorem c1_witness :
    ((SetupResult.mk true SetupStatus.success none none [] []).add_error
        "gateway" "creation_error" "gateway creation failed" none false).success = false
    ∧ ((SetupResult.mk true SetupStatus.success none none [] []).add_error
        "gateway" "creation_error" "gateway creation failed" none false).status
        = SetupStatus.failed :=
  ⟨(c1_add_error_status _ "gateway" "creation_error" "gateway creation failed" none false).1,
   (c1_add_error_status _ "gateway" "creation_error" "gateway creation failed" none false).2.1 rfl⟩

/-- Claim C1 counterexample: a recoverable error first, then the first
non-recoverable error; the claim says the non-recoverable error forces
`status = FAILED`, but the status stays `PARTIAL`. -/
theorem c1_counterexample :
    (((SetupResult.mk true SetupStatus.success none none [] []).add_error
        "credential" "api_error" "token refresh failed" none true).add_error
        "gateway" "fatal_error" "gateway unreachable" none false).errors.map
        SetupError.recoverable = [true, false]
    ∧ (((SetupResult.mk true SetupStatus.success none none [] []).add_error
        "credential" "api_error" "token refresh failed" none true).add_error
        "gateway" "fatal_error" "gateway unreachable" none false).status
        = SetupStatus.part
    ∧ SetupStatus.part ≠ SetupStatus.failed := by decide

/-! ## Claim C2 -/

/-- Claim C2 (amended): starting from a state whose `failed_steps` has no
duplicates, `mark_step_completed` removes the step from `failed_steps` and
preserves disjointness of `completed_steps` and `failed_steps`; but
`mark_step_failed` leaves `completed_steps` untouched, so marking a previously
completed step as failed can make the two lists overlap. -/
theorem c2_mark_step (s : SetupState) (step : String)
    (hnd : s.failed_steps.Nodup) :
    step ∉ (s.mark_step_completed step).failed_steps
    ∧ (s.completed_steps.Disjoint s.failed_steps →
        (s.mark_step_completed step).completed_steps.Disjoint
          (s.mark_step_completed step).failed_steps)
    ∧ (s.mark_step_failed step).completed_steps = s.completed_steps := by
  have hstep : step ∉ (s.mark_step_completed step).failed_steps := by
    by_cases h : step ∈ s.failed_steps
    · simpa [SetupState.mark_step_completed, h] using hnd.not_mem_erase
    · simp [SetupState.mark_step_completed, h]
  refine ⟨hstep, ?_, rfl⟩
  intro hd a ha hf
  have hfailed : a ∈ s.failed_steps := by
    simp only [SetupState.mark_step_completed] at hf
    by_cases h : step ∈ s.failed_steps
    · rw [if_pos h] at hf
      exact List.erase_subset _ _ hf
    · rwa [if_neg h] at hf
  simp only [SetupState.mark_step_completed] at ha
  by_cases hc : step ∈ s.completed_steps
  · rw [if_pos hc] at ha
    exact hd ha hfailed
  · rw [if_neg hc] at ha
    rcases List.mem_append.1 ha with h1 | h1
    · exact hd h1 hfailed
    · have heq : a = step := by simpa using h1
      subst heq
      exact hstep hf

/-- Claim C2 witness: completing a previously failed step removes it from the
failed list and keeps the two lists disjoint. -/
theorem c2_witness :
    "configure" ∉ ((SetupState.mk "deploy" ["init"] ["configure"] [] 0).mark_step_completed
        "configure").failed_steps
    ∧ ((SetupState.mk "deploy" ["init"] ["configure"] [] 0).mark_step_completed
        "configure").completed_steps.Disjoint
        ((SetupState.mk "deploy" ["init"] ["configure"] [] 0).mark_step_completed
          "configure").failed_steps := by
  have h := c2_mark_step (SetupState.mk "deploy" ["init"] ["configure"] [] 0) "configure"
    (by simp)
  refine ⟨h.1, h.2.1 ?_⟩
  intro a h1 h2
  simp at h1 h2
  subst h1
  exact absurd h2 (by decide)

/-- Claim C2 counterexample: completing a step and then failing the same step
leaves it in both lists, so `completed_steps` and `failed_steps` are not
disjoint after every operation. -/
theorem c2_counterexample :
    "deploy" ∈ (((SetupState.mk "start" [] [] [] 0).mark_step_completed
        "deploy").mark_step_failed "deploy").completed_steps
    ∧ "deploy" ∈ (((SetupState.mk "start" [] [] [] 0).mark_step_completed
        "deploy").mark_step_failed "deploy").failed_steps := by decide

/-! ## Claim C3 -/

/-- Definition following the claim's (and spec's) words: a string consisting of
exactly 12 decimal digits.  Used to compare the claimed acceptance set with the
code's account-id format check. -/
def claimTwelveDigitString (s : String) : Bool :=
  (s.data.length == 12) && s.data.all Char.isDigit

/-- The account-id error condition of the source equals the negation of
"exactly 12 decimal digits". -/
theorem account_condition_eq (cs : List Char) :
    (!(!cs.isEmpty && cs.all Char.isDigit) || (cs.length != 12))
      = !((cs.length == 12) && cs.all Char.isDigit) := by
  cases cs with
  | nil => decide
  | cons c rest =>
    cases h2 : (c :: rest).all Char.isDigit <;>
      simp [h2, bne]

/-- Claim C3 (amended): for a present, non-empty `account_id` value the format
check accepts exactly those strings that, after trimming whitespace, consist of
exactly 12 decimal digits; every other non-empty value gets one error on the
`account_id` field.  (Surrounding whitespace alone does not make the check
fail, because the value is trimmed before checking.) -/
theorem c3_account_id_format (s : String) (h : pyTruthy s = true) :
    (accountIdErrors [("account_id", s)] = []
        ↔ claimTwelveDigitString (pyStrip s) = true)
    ∧ (claimTwelveDigitString (pyStrip s) = false →
        (accountIdErrors [("account_id", s)]).map ValidationError.field
          = ["account_id"]) := by
  have hred : accountIdErrors [("account_id", s)]
      = (if pyTruthy s then
          (if !(pyIsdigit (pyStrip s)) || (pyStrip s).data.length != 12 then
            [⟨"account_id", s!"Invalid AWS account ID format: {pyStrip s}",
              some "AWS account ID must be a 12-digit number", none⟩]
          else [])
        else []) := rfl
  rw [hred, h]
  simp only [if_true]
  have hcond : (!(pyIsdigit (pyStrip s)) || (pyStrip s).data.length != 12)
      = !claimTwelveDigitString (pyStrip s) := by
    simp only [pyIsdigit, claimTwelveDigitString]
    exact account_condition_eq (pyStrip s).data
  rw [hcond]
  cases hc : claimTwelveDigitString (pyStrip s) <;> simp [hc]

/-- Claim C3 witness: a 5-digit string is rejected with one `account_id` error. -/
theorem c3_witness :
    (accountIdErrors [("account_id", "12345")]).map ValidationError.field
      = ["account_id"] :=
  (c3_account_id_format "12345" (by decide)).2 (by decide)

/-- Claim C3 counterexample: `" 123456789012"` contains whitespace (so it is
not a string of exactly 12 decimal digits and the claim says the check must
fail), yet `validate_config` appends no `account_id` error for it: the value is
trimmed before the check. -/
theorem c3_counterexample :
    claimTwelveDigitString " 123456789012" = false
    ∧ (validate_config [("account_id", " 123456789012")]).errors.filter
        (fun e => e.field == "account_id") = [] := by decide

/-! ## Claim C4 -/

/-- Claim C4 (amended): `update_config_parameter` starts from an empty mapping
when the file is absent, and otherwise saves the loaded mapping — in which
`load_config` has already whitespace-stripped the six identifier keys — with
only the named key set to the new value: the saved value of every other key
equals its loaded value. -/
theorem c4_update_parameter (file : Option YamlDoc) (key value other : String)
    (h : other ≠ key) :
    update_config_parameter none key value = Except.ok (setKey [] key value)
    ∧ (∀ config : Config, load_config file = Except.ok config →
        update_config_parameter file key value = Except.ok (setKey config key value)
        ∧ cfgGet (setKey config key value) other = cfgGet config other) := by
  refine ⟨rfl, fun config hc => ⟨?_, cfgGet_setKey_ne config key value other h⟩⟩
  simp [update_config_parameter, hc]

/-- Claim C4 witness: updating `gateway_name` on a one-key file saves that key
and leaves the (absent) `region` lookup unchanged. -/
theorem c4_witness :
    update_config_parameter (some (YamlDoc.mapping [("gateway_name", "OldGateway")]))
        "gateway_name" "NewGateway"
      = Except.ok (setKey [("gateway_name", "OldGateway")] "gateway_name" "NewGateway")
    ∧ cfgGet (setKey [("gateway_name", "OldGateway")] "gateway_name" "NewGateway") "region"
      = cfgGet [("gateway_name", "OldGateway")] "region" :=
  (c4_update_parameter (some (YamlDoc.mapping [("gateway_name", "OldGateway")]))
    "gateway_name" "NewGateway" "region" (by decide)).2
    [("gateway_name", "OldGateway")] rfl

/-- Claim C4 counterexample: updating `gateway_name` on a file whose stored
`account_id` is `" 123456789012 "` saves `account_id` as `"123456789012"` —
the saved value of a key other than the updated one differs from the value
stored in the existing file, because `load_config` strips identifier keys. -/
theorem c4_counterexample :
    update_config_parameter
        (some (YamlDoc.mapping [("account_id", " 123456789012 "), ("gateway_name", "old")]))
        "gateway_name" "new"
      = Except.ok [("account_id", "123456789012"), ("gateway_name", "new")]
    ∧ cfgGet [("account_id", " 123456789012 "), ("gateway_name", "old")] "account_id"
        ≠ cfgGet [("account_id", "123456789012"), ("gateway_name", "new")] "account_id" :=
  ⟨rfl, by decide⟩

/-! ## Claim C5 -/

/-- Claim C5 (confirmed): `validate_config` runs every check unconditionally —
its error list is always the concatenation of the six checks' error lists, in
source order, with no early exit — a single call can append several independent
errors (the empty configuration gets at least two), and the returned result has
`is_valid = true` exactly when no error was appended. -/
theorem c5_validate_all_checks :
    (∀ config : Config,
        (validate_config config).errors
          = requiredParamErrors config ++ accountIdErrors config ++ regionErrors config
            ++ endpointUrlErrors config ++ userPoolErrors config ++ placeholderErrors config
        ∧ ((validate_config config).is_valid = true
            ↔ (validate_config config).errors = []))
    ∧ 2 ≤ (validate_config []).errors.length := by
  refine ⟨fun config => ⟨?_, ?_⟩, by decide⟩
  · rw [validate_config, addErrorList_errors]
    simp [initValidationResult, validationErrors]
  · rw [validate_config, addErrorList_is_valid, addErrorList_errors]
    simp [initValidationResult, List.isEmpty_iff]

/-! ## Claim C6 -/

/-- Claim C6 (confirmed): a configuration mapping that contains every required
key with a non-empty value, whose account id trims to exactly 12 digits, whose
region is alphanumeric up to hyphens/underscores, whose endpoint URLs start
with `https://`, whose user-pool id is well-formed, and which contains no
placeholder sentinel value, validates with `is_valid = true` and an empty
error list. -/
theorem c6_validate_well_formed (config : Config)
    (hreq : ((required_aws_params ++ required_cognito_params
        ++ required_gateway_params).all
        fun param => configHasTruthy config param) = true)
    (hacct : (Option.all (fun v =>
        pyIsdigit (pyStrip v) && ((pyStrip v).data.length == 12))
        (cfgGet config "account_id")) = true)
    (hregion : (Option.all (fun v =>
        pyIsalnum (removeChar '_' (removeChar '-' (pyStrip v))))
        (cfgGet config "region")) = true)
    (hurl : (endpoint_url_params.all fun param =>
        Option.all (fun v => pyStartsWith "https://" (pyStrip v))
          (cfgGet config param)) = true)
    (hpool : (Option.all (fun v =>
        containsChar (pyStrip v) '_'
          && pyIsalnum (removeChar '-' (headBefore '_' (pyStrip v))))
        (cfgGet config "user_pool_id")) = true)
    (hph : (config.all fun kv => !(placeholder_values.elem kv.2)) = true) :
    (validate_config config).is_valid = true
    ∧ (validate_config config).errors = [] := by
  have hr : ∀ p ∈ required_aws_params ++ required_cognito_params
      ++ required_gateway_params, configHasTruthy config p = true :=
    List.all_eq_true.1 hreq
  have htruthy : ∀ p, p ∈ required_aws_params ++ required_cognito_params
      ++ required_gateway_params →
      ∀ v, cfgGet config p = some v → pyTruthy v = true := by
    intro p hp v hv
    have h := hr p hp
    simp only [configHasTruthy] at h
    rw [hv] at h
    exact h
  have h1 : requiredParamErrors config = [] := by
    have haws : required_aws_params.filterMap (fun param =>
        if configHasTruthy config param then none
        else some (missingAwsError param)) = [] := by
      rw [List.filterMap_eq_nil_iff]
      intro p hp
      rw [hr p (by simp [hp])]
      simp
    have hcog : required_cognito_params.filterMap (fun param =>
        if configHasTruthy config param then none
        else some (missingCognitoError param)) = [] := by
      rw [List.filterMap_eq_nil_iff]
      intro p hp
      rw [hr p (by simp [hp])]
      simp
    have hgw : required_gateway_params.filterMap (fun param =>
        if configHasTruthy config param then none
        else some (missingGatewayError param)) = [] := by
      rw [List.filterMap_eq_nil_iff]
      intro p hp
      rw [hr p (by simp [hp])]
      simp
    rw [requiredParamErrors, haws, hcog, hgw]
    rfl
  have h2 : accountIdErrors config = [] := by
    cases hg : cfgGet config "account_id" with
    | none => simp [accountIdErrors, hg]
    | some v =>
      rw [hg, Option.all_some] at hacct
      obtain ⟨hd, hl⟩ := Bool.and_eq_true_iff.1 hacct
      have htr : pyTruthy v = true := htruthy "account_id" (by decide) v hg
      have hl' : (pyStrip v).data.length = 12 := by simpa using hl
      simp [accountIdErrors, hg, htr, hd, hl', bne]
  have h3 : regionErrors config = [] := by
    cases hg : cfgGet config "region" with
    | none => simp [regionErrors, hg]
    | some v =>
      rw [hg, Option.all_some] at hregion
      have htr : pyTruthy v = true := htruthy "region" (by decide) v hg
      simp [regionErrors, hg, htr, hregion]
  have h4 : endpointUrlErrors config = [] := by
    rw [endpointUrlErrors, List.filterMap_eq_nil_iff]
    intro p hp
    have hu := List.all_eq_true.1 hurl p hp
    cases hg : cfgGet config p with
    | none => simp [hg]
    | some v =>
      rw [hg, Option.all_some] at hu
      have htr : pyTruthy v = true := by
        have hmem : p = "endpoint_url" ∨ p = "credential_provider_endpoint_url" := by
          simpa [endpoint_url_params] using hp
        rcases hmem with h | h <;> subst h <;> exact htruthy _ (by decide) v hg
      simp [hg, htr, hu]
  have h5 : userPoolErrors config = [] := by
    cases hg : cfgGet config "user_pool_id" with
    | none => simp [userPoolErrors, hg]
    | some v =>
      rw [hg, Option.all_some] at hpool
      obtain ⟨hc, hb⟩ := Bool.and_eq_true_iff.1 hpool
      have htr : pyTruthy v = true := htruthy "user_pool_id" (by decide) v hg
      simp [userPoolErrors, hg, htr, hc, hb]
  have h6 : placeholderErrors config = [] := by
    rw [placeholderErrors, List.filterMap_eq_nil_iff]
    intro kv hkv
    obtain ⟨k, v⟩ := kv
    have h := List.all_eq_true.1 hph ⟨k, v⟩ hkv
    have h' : v ∉ placeholder_values := by simpa using h
    simp [h']
  have hve : validationErrors config = [] := by
    rw [validationErrors, h1, h2, h3, h4, h5, h6]
    rfl
  constructor
  · rw [validate_config, addErrorList_is_valid, hve]
    rfl
  · rw [validate_config, addErrorList_errors, hve]
    rfl

/-- Claim C6 witness: a concrete fully well-formed, placeholder-free
configuration validates cleanly. -/
theorem c6_witness :
    (validate_config
        [("account_id", "123456789012"), ("region", "us-east-1"),
         ("role_name", "SRE-Gateway-Role"),
         ("endpoint_url", "https://example.amazonaws.com"),
         ("credential_provider_endpoint_url", "https://provider.example.com"),
         ("user_pool_id", "us-east-1_ABC123"), ("client_id", "client123"),
         ("gateway_name", "MyGateway"),
         ("credential_provider_name", "my-provider")]).is_valid = true
    ∧ (validate_config
        [("account_id", "123456789012"), ("region", "us-east-1"),
         ("role_name", "SRE-Gateway-Role"),
         ("endpoint_url", "https://example.amazonaws.com"),
         ("credential_provider_endpoint_url", "https://provider.example.com"),
         ("user_pool_id", "us-east-1_ABC123"), ("client_id", "client123"),
         ("gateway_name", "MyGateway"),
         ("credential_provider_name", "my-provider")]).errors = [] :=
  c6_validate_well_formed _ (by decide) (by decide) (by decide) (by decide)
    (by decide) (by decide)

/-! ## Claim C7 -/

/-- Claim C7 (confirmed): `create_template_files` writes each template only
when the target file does not exist: an existing file's content is kept
verbatim, an absent file receives the template, and a second call right after a
first changes nothing (the operation is idempotent and never overwrites). -/
theorem c7_create_templates (fs : TemplateFS) :
    create_template_files (create_template_files fs) = create_template_files fs
    ∧ (create_template_files fs).config_file
        = some (fs.config_file.getD config_template)
    ∧ (create_template_files fs).env_example_file
        = some (fs.env_example_file.getD env_template) := by
  obtain ⟨cf, ef⟩ := fs
  cases cf <;> cases ef <;> simp [create_template_files]

/-! ## Claim C8 -/

/-- Claim C8 (amended): `load_config` fails with a not-found error when the
file is absent, fails with a parse error when the YAML is malformed, returns an
empty mapping for an empty (null) document, and on success returns the parsed
mapping with the six identifier keys whitespace-stripped. -/
theorem c8_load_config :
    load_config none = Except.error LoadError.not_found
    ∧ load_config (some YamlDoc.malformed) = Except.error LoadError.parse_error
    ∧ load_config (some YamlDoc.empty) = Except.ok []
    ∧ ∀ config : Config,
        load_config (some (YamlDoc.mapping config))
          = Except.ok (stripIdentifierKeys config) :=
  ⟨rfl, rfl, rfl, fun _ => rfl⟩

/-- Claim C8 counterexample: a successfully parsed mapping whose `account_id`
value carries surrounding whitespace is not returned as parsed — the value
comes back stripped, so `load` does not return the parsed mapping verbatim. -/
theorem c8_counterexample :
    load_config (some (YamlDoc.mapping [("account_id", " 123456789012 ")]))
      = Except.ok [("account_id", "123456789012")]
    ∧ ([("account_id", " 123456789012 ")] : Config)
        ≠ [("account_id", "123456789012")] :=
  ⟨rfl, by decide⟩

/-! ## Claim C9 -/

/-- Claim C9 (confirmed): in `validate_environment_variables` the merged
environment is the process environment updated by the `.env` file, so when a
variable is defined in the environment file the per-variable check is decided
by the file's value alone — it is independent of the process environment — and
the result's errors are exactly the per-variable check errors. -/
theorem c9_env_file_precedence (os_env env_file : Config)
    (required_vars : List String) (var value : String)
    (hfile : cfgGet env_file var = some value) :
    envVarMissing os_env env_file var = value.data.isEmpty
    ∧ (∀ os_env2 : Config,
        envVarMissing os_env2 env_file var = envVarMissing os_env env_file var)
    ∧ (validate_environment_variables os_env env_file required_vars).errors
        = envVarErrors os_env env_file required_vars := by
  have h1 : ∀ os : Config, envVarMissing os env_file var = value.data.isEmpty := by
    intro os
    simp [envVarMissing, envLookup, hfile]
  refine ⟨h1 os_env, fun os2 => by rw [h1, h1], ?_⟩
  rw [validate_environment_variables, addErrorList_errors]
  rfl

/-- Claim C9 witness: a variable empty in the process environment but
non-empty in the `.env` file passes the check — the file value wins. -/
theorem c9_witness :
    envVarMissing [("BACKEND_API_KEY", "")] [("BACKEND_API_KEY", "key-from-file")]
        "BACKEND_API_KEY"
      = ("key-from-file" : String).data.isEmpty
    ∧ (validate_environment_variables [("BACKEND_API_KEY", "")]
        [("BACKEND_API_KEY", "key-from-file")] ["BACKEND_API_KEY"]).errors = [] := by
  have h := c9_env_file_precedence [("BACKEND_API_KEY", "")]
    [("BACKEND_API_KEY", "key-from-file")] ["BACKEND_API_KEY"]
    "BACKEND_API_KEY" "key-from-file" (by decide)
  exact ⟨h.1, h.2.2.trans (by decide)⟩

/-! ## Claim C10 -/

/-- Claim C10 (confirmed): `add_warning` never touches `is_valid` or the error
list — after appending any number of warnings both are exactly what they were,
so warnings alone never invalidate a result. -/
theorem c10_add_warning (r : ValidationResult) (messages : List String) :
    (messages.foldl ValidationResult.add_warning r).is_valid = r.is_valid
    ∧ (messages.foldl ValidationResult.add_warning r).errors = r.errors := by
  induction messages generalizing r with
  | nil => exact ⟨rfl, rfl⟩
  | cons m ms ih => exact ⟨(ih (r.add_warning m)).1, (ih (r.add_warning m)).2⟩

end AwsSetup
